import Mathlib

set_option autoImplicit false

/-!
Verification development for the guarded finite-state-machine orchestrator:
the pet-lifecycle workflow (steps/python/pet_lifecycle_orchestrator_step.py
with its store steps/services/pet_store.py) and the scoring-job workflow
(services/scoring_api/app/core/orchestrator.py with the SSE streaming layer
services/scoring_api/app/streaming/sse.py).

Statuses, events, guard names and flag names are strings in the source, so
they are strings here.  Wall-clock time (time.time()*1000, datetime.utcnow())
is passed in explicitly as a `now : Nat` parameter.  The handler is modelled
with a context whose `emit` and `logger` attributes are present (the runtime
always supplies them); log lines are not modelled, emitted events are.
-/

namespace PetLifecycle

/-- Entity record, from steps/services/types.py (`Pet`, a `total=False`
TypedDict) restricted to the fields the orchestrator reads or writes.
`flags` is optional because `create` never initialises it and the code reads
it with `pet.get('flags')`. -/
structure Pet where
  id : String
  name : String
  species : String
  ageMonths : Nat
  status : String
  flags : Option (List String) := none
  createdAt : Nat
  updatedAt : Nat
deriving Repr, DecidableEq

/-- The JSON file layout of steps/services/pet_store.py (`DbShape`):
a sequence counter and a dict from pet id to pet, modelled as an
association list. -/
structure Db where
  seq : Nat
  pets : List (String × Pet)
deriving Repr, DecidableEq

namespace pet_store

/-- `pet_store.get`: `db['pets'].get(pid)`. -/
def get (db : Db) (pid : String) : Option Pet :=
  db.pets.lookup pid

/-- Dict assignment `db['pets'][pid] = pet` for a key already present:
replaces the binding in place. -/
def putPet (db : Db) (pid : String) (p : Pet) : Db :=
  { db with pets := db.pets.map (fun kv => if kv.1 == pid then (pid, p) else kv) }

/-- `pet_store.update_status`: load, return `None` if the pet is missing,
otherwise persist a copy with the new status and a fresh `updatedAt`. -/
def update_status (db : Db) (pid : String) (status : String) (now : Nat) :
    Option Pet × Db :=
  match get db pid with
  | none => (none, db)
  | some pet =>
      let updated : Pet := { pet with status := status, updatedAt := now }
      (some updated, putPet db pid updated)

end pet_store

/-- Result of `check_guards`: the returned dict is either
`{'passed': True}` or `{'passed': False, 'reason': ...}`. -/
inductive GuardResult
  | passed
  | failed (reason : String)
deriving Repr, DecidableEq

/-- Python truthiness of `pet.get('flags') and 'needs_data' in pet['flags']`:
the flags key is present, the list non-empty, and contains "needs_data". -/
def flagsBlocking (pet : Pet) : Bool :=
  match pet.flags with
  | none => false
  | some l => !l.isEmpty && l.contains "needs_data"

/-- One iteration of the loop body of `check_guards`
(pet_lifecycle_orchestrator_step.py lines 12-20): dispatch on the guard
name; unknown guard names fail. -/
def evalGuard (pet : Pet) (g : String) : GuardResult :=
  if g == "must_be_healthy" then
    if pet.status != "healthy" then
      .failed ("Pet must be healthy (current: " ++ pet.status ++ ")")
    else .passed
  else if g == "no_needs_data_flag" then
    if flagsBlocking pet then
      .failed "Pet has needs_data flag blocking adoption"
    else .passed
  else
    .failed ("Unknown guard: " ++ g)

/-- `check_guards`: iterate the guard names in order, returning the first
failure (the Python `return` inside the loop), `passed` if none fails. -/
def check_guards (pet : Pet) : List String → GuardResult
  | [] => .passed
  | g :: rest =>
      match evalGuard pet g with
      | .failed r => .failed r
      | .passed => check_guards pet rest

/-- The optional `flagAction` dict of a rule: `{'action': ..., 'flag': ...}`. -/
structure FlagAction where
  action : String
  flag : String
deriving Repr, DecidableEq

/-- One entry of `TRANSITION_RULES`.  The Python keys `from` / `to` become
`fromS` / `toStatus` (both are reserved words in Lean); `guards` and
`flagAction` are absent from most rule dicts, hence the defaults. -/
structure Rule where
  fromS : List String
  toStatus : String
  event : String
  description : String
  guards : List String := []
  flagAction : Option FlagAction := none
deriving Repr, DecidableEq

/-- `TRANSITION_RULES` (pet_lifecycle_orchestrator_step.py lines 23-112),
in declaration order. -/
def TRANSITION_RULES : List Rule :=
  [ { fromS := ["new"], toStatus := "in_quarantine", event := "feeding.reminder.completed",
      description := "Pet moved to quarantine after feeding setup" },
    { fromS := ["in_quarantine"], toStatus := "healthy", event := "status.update.requested",
      description := "Staff health check - pet cleared from quarantine" },
    { fromS := ["healthy", "in_quarantine", "available"], toStatus := "ill",
      event := "status.update.requested",
      description := "Staff assessment - pet identified as ill" },
    { fromS := ["healthy"], toStatus := "available", event := "status.update.requested",
      description := "Staff decision - pet ready for adoption" },
    { fromS := ["ill"], toStatus := "under_treatment", event := "status.update.requested",
      description := "Staff decision - treatment started" },
    { fromS := ["under_treatment", "ill"], toStatus := "recovered",
      event := "status.update.requested",
      description := "Staff assessment - treatment completed" },
    { fromS := ["recovered", "new"], toStatus := "healthy", event := "status.update.requested",
      description := "Staff clearance - pet fully recovered" },
    { fromS := ["available"], toStatus := "pending", event := "status.update.requested",
      description := "Adoption application received" },
    { fromS := ["pending"], toStatus := "adopted", event := "status.update.requested",
      description := "Adoption completed" },
    { fromS := ["pending"], toStatus := "available", event := "status.update.requested",
      description := "Adoption application rejected/cancelled" },
    { fromS := ["healthy", "in_quarantine"], toStatus := "ill", event := "health.treatment_required",
      description := "Agent assessment - pet requires medical treatment" },
    { fromS := ["healthy", "in_quarantine"], toStatus := "healthy",
      event := "health.no_treatment_needed",
      description := "Agent assessment - pet remains healthy" },
    { fromS := ["healthy"], toStatus := "healthy", event := "adoption.needs_data",
      description := "Agent assessment - pet needs additional data before adoption",
      flagAction := some { action := "add", flag := "needs_data" } },
    { fromS := ["healthy"], toStatus := "available", event := "adoption.ready",
      description := "Agent assessment - pet ready for adoption",
      guards := ["no_needs_data_flag"] } ]

/-- Events the handler emits through `ctx.emit`, restricted to the payload
fields the claims are about (timestamps are pass-through and omitted). -/
inductive Emitted
  | transitionRejected (petId currentStatus : String) (requestedStatus : Option String)
      (eventType reason : String)
  | transitionCompleted (petId oldStatus newStatus eventType description : String)
  | nextAction (topic petId : String)
  | autoStatusUpdateRequested (petId requestedStatus currentStatus : String)
deriving Repr, DecidableEq

/-- The (implicit) outcome of one handler invocation: the Python handler
returns `None` on every path, so this labels which `return` was taken.
`attrError` marks the path where the matched rule has a `flagAction` and the
handler calls `pet_store.add_flag` / `pet_store.remove_flag` — functions that
steps/services/pet_store.py does not define, so the attribute access raises
`AttributeError`, caught by the handler's outer `except Exception`. -/
inductive Outcome
  | notFound
  | rejected (reason : String)
  | noop
  | storeUpdateFailed
  | attrError (oldStatus newStatus : String)
  | applied (oldStatus newStatus : String)
deriving Repr, DecidableEq

/-- Everything observable from one handler invocation: which return path was
taken, the store afterwards, the events emitted, and the automatic
progression scheduled by `check_automatic_progressions` (pet id, the status
that triggered scheduling, the status to request), if any. -/
structure HandlerResult where
  outcome : Outcome
  db : Db
  emitted : List Emitted
  scheduled : Option (String × String × String)
deriving Repr, DecidableEq

/-- Python truthiness of an optional string (`None` and `""` are falsy). -/
def truthyOpt : Option String → Bool
  | none => false
  | some s => !s.isEmpty

/-- How an f-string renders the requested status in the rejection reason
(`None` prints as "None"). -/
def renderOpt : Option String → String
  | none => "None"
  | some s => s

/-- The per-rule match test of the two selection loops
(pet_lifecycle_orchestrator_step.py lines 165-179): when the event is
`status.update.requested` and a requested status was supplied, the rule's
`to` must also equal it; otherwise only event and current status are
checked. -/
def ruleMatches (status event_type : String) (requested : Option String) (r : Rule) : Bool :=
  if event_type == "status.update.requested" && truthyOpt requested then
    r.event == event_type && r.fromS.contains status && requested == some r.toStatus
  else
    r.event == event_type && r.fromS.contains status

/-- The selection loops `for r in TRANSITION_RULES: ... break`: first match
in declaration order. -/
def find_rule (rules : List Rule) (status event_type : String)
    (requested : Option String) : Option Rule :=
  rules.find? (ruleMatches status event_type requested)

/-- The `automatic_progressions` dict of `check_automatic_progressions`. -/
def automatic_progressions (status : String) : Option String :=
  if status == "healthy" then some "available"
  else if status == "ill" then some "under_treatment"
  else if status == "recovered" then some "healthy"
  else none

/-- `emit_next_action_events`: at most one follow-up topic, keyed on the
(new, old) status pair. -/
def emit_next_action_events (pid new_status old_status : String) : List Emitted :=
  if new_status == "under_treatment" && old_status == "ill" then
    [.nextAction "py.treatment.required" pid]
  else if new_status == "available" && old_status == "healthy" then
    [.nextAction "py.adoption.ready" pid]
  else if new_status == "recovered" && old_status == "under_treatment" then
    [.nextAction "py.treatment.completed" pid]
  else if new_status == "healthy" && old_status == "recovered" then
    [.nextAction "py.health.restored" pid]
  else []

/-- The tail of the success path (lines 266-293): emit the completed event,
then the next-action event, then schedule an automatic progression when the
landed status is in the `automatic_progressions` map. -/
def applied_result (petId event_type old_status : String) (rule : Rule) (db1 : Db) :
    HandlerResult :=
  { outcome := .applied old_status rule.toStatus,
    db := db1,
    emitted := Emitted.transitionCompleted petId old_status rule.toStatus event_type rule.description
      :: emit_next_action_events petId rule.toStatus old_status,
    scheduled := (automatic_progressions rule.toStatus).map (fun nx => (petId, rule.toStatus, nx)) }

/-- The orchestrator `handler` (pet_lifecycle_orchestrator_step.py lines
134-297), with `ctx.emit` present.  Branches in source order: missing pet;
rule selection; guard check (only when the rule has a non-empty guard list);
idempotency (already at `rule['to']` and no flag action → plain return, no
emit); `update_status`; the flag-action call into the store (which raises,
see `Outcome.attrError`); emits and automatic progression. -/
def handler (db : Db) (petId event_type : String) (requested : Option String)
    (now : Nat) : HandlerResult :=
  match pet_store.get db petId with
  | none => { outcome := .notFound, db := db, emitted := [], scheduled := none }
  | some pet =>
    match find_rule TRANSITION_RULES pet.status event_type requested with
    | none =>
        let reason :=
          if event_type == "status.update.requested" then
            "Invalid transition: cannot change from " ++ pet.status ++ " to "
              ++ renderOpt requested
          else
            "No transition rule found for " ++ event_type ++ " from " ++ pet.status
        { outcome := .rejected reason, db := db,
          emitted := [.transitionRejected petId pet.status requested event_type reason],
          scheduled := none }
    | some rule =>
      match (if !rule.guards.isEmpty then check_guards pet rule.guards else .passed) with
      | .failed gr =>
          let reason := "Guard check failed: " ++ gr
          { outcome := .rejected reason, db := db,
            emitted := [.transitionRejected petId pet.status (some rule.toStatus) event_type reason],
            scheduled := none }
      | .passed =>
        if pet.status == rule.toStatus && rule.flagAction.isNone then
          { outcome := .noop, db := db, emitted := [], scheduled := none }
        else
          match pet_store.update_status db petId rule.toStatus now with
          | (none, db1) =>
              { outcome := .storeUpdateFailed, db := db1, emitted := [], scheduled := none }
          | (some _, db1) =>
            match rule.flagAction with
            | some fa =>
                if fa.action == "add" || fa.action == "remove" then
                  { outcome := .attrError pet.status rule.toStatus, db := db1,
                    emitted := [], scheduled := none }
                else
                  applied_result petId event_type pet.status rule db1
            | none => applied_result petId event_type pet.status rule db1

/-- The body of `delayed_emit` inside `check_automatic_progressions` (lines
379-408) at the moment the 1.5 s sleep ends: re-load the pet from the store
as it is *then* (`dbLater`), and emit the synthetic
`py.pet.status.update.requested` event only if the fresh status still equals
the status that triggered scheduling; otherwise (pet gone or status changed)
log and emit nothing. -/
def delayed_emit (dbLater : Db) (petId triggerStatus nextStatus : String) :
    Option Emitted :=
  match pet_store.get dbLater petId with
  | some fresh =>
      if fresh.status == triggerStatus then
        some (.autoStatusUpdateRequested petId nextStatus fresh.status)
      else none
  | none => none

end PetLifecycle

namespace Scoring

/-- `ScoringState` (orchestrator.py lines 14-21). -/
inductive ScoringState
  | pending
  | processing
  | scored
  | enriched
  | completed
  | failed
deriving Repr, DecidableEq

/-- The `.value` of each enum member. -/
def ScoringState.val : ScoringState → String
  | .pending => "pending"
  | .processing => "processing"
  | .scored => "scored"
  | .enriched => "enriched"
  | .completed => "completed"
  | .failed => "failed"

/-- The enum constructor call `ScoringState(job["state"])`: `none` models the
`ValueError` Python raises when the string is not a member value. -/
def parseScoringState (s : String) : Option ScoringState :=
  if s == "pending" then some .pending
  else if s == "processing" then some .processing
  else if s == "scored" then some .scored
  else if s == "enriched" then some .enriched
  else if s == "completed" then some .completed
  else if s == "failed" then some .failed
  else none

/-- The job dict stored under `job:{job_id}` in Redis (orchestrator.py lines
42-53), with `metadata`/`text` kept opaque and timestamps as `Nat`. -/
structure Job where
  job_id : String
  submission_id : String
  text : String
  metadata : String
  state : String
  created_at : Nat
  updated_at : Nat
  steps_completed : List String
  results : List (String × String)
  errors : List String
deriving Repr, DecidableEq

/-- A `job_state_changed` message on the `scoring_workflow` pub/sub channel:
`_publish_event("job_state_changed", {"job_id", "state", "step"})`. -/
structure PubEvent where
  type : String
  job_id : String
  state : String
  step : Option String
deriving Repr, DecidableEq

/-- The orchestrator's externally visible state: the Redis keyspace (an
association list keyed by job id, standing for the `job:{id}` keys) and the
ordered list of messages published on the pub/sub channel, which is exactly
what a subscriber connected from the start receives, in order. -/
structure OrchState where
  store : List (String × Job)
  published : List PubEvent
deriving Repr, DecidableEq

/-- `get_job_status`: `conn.get(f"job:{job_id}")`, parsed. -/
def get_job_status (st : OrchState) (jid : String) : Option Job :=
  st.store.lookup jid

/-- `conn.setex(f"job:{job_id}", ..., json.dumps(job))`: overwrite the key
(expiry is not modelled). -/
def setJob (st : OrchState) (jid : String) (j : Job) : OrchState :=
  { st with store := (jid, j) :: st.store.filter (fun kv => kv.1 != jid) }

/-- `_publish_event` on the `scoring_workflow` channel. -/
def publish (st : OrchState) (e : PubEvent) : OrchState :=
  { st with published := st.published ++ [e] }

/-- `WorkflowOrchestrator.update_job_state` (orchestrator.py lines 73-107).
Python exceptions are modelled as `Except.error`; the second component is
the orchestrator state after the call, unchanged when the call raised before
performing any write or publish. -/
def update_job_state (st : OrchState) (jid : String) (state : ScoringState)
    (step_name : Option String) (result : Option String) (now : Nat) :
    Except String Job × OrchState :=
  match get_job_status st jid with
  | none => (Except.error ("Job " ++ jid ++ " not found"), st)
  | some job =>
    let job1 : Job := { job with state := state.val, updated_at := now }
    let job2 : Job :=
      match step_name with
      | none => job1
      | some sn =>
        if sn.isEmpty then job1
        else
          let j : Job := { job1 with steps_completed := job1.steps_completed ++ [sn] }
          match result with
          | none => j
          | some r => if r.isEmpty then j else { j with results := j.results ++ [(sn, r)] }
    let st1 := setJob st jid job2
    let st2 := publish st1 { type := "job_state_changed", job_id := jid,
                             state := state.val, step := step_name }
    (Except.ok job2, st2)

/-- The `allowed` dict of `transition_job` (orchestrator.py lines 118-125). -/
def allowed_transitions : ScoringState → List ScoringState
  | .pending => [.processing, .failed]
  | .processing => [.scored, .failed]
  | .scored => [.enriched, .completed]
  | .enriched => [.completed, .failed]
  | .completed => []
  | .failed => []

/-- `WorkflowOrchestrator.transition_job` (orchestrator.py lines 109-132):
load the job (`ValueError` if missing), parse its stored state (`ValueError`
if not a valid enum value), reject the transition unless the requested next
state is in the allowed list for the current state, otherwise delegate to
`update_job_state` with no step name and no result. -/
def transition_job (st : OrchState) (jid : String) (next_state : ScoringState)
    (now : Nat) : Except String Job × OrchState :=
  match get_job_status st jid with
  | none => (Except.error ("Job " ++ jid ++ " not found"), st)
  | some job =>
    match parseScoringState job.state with
    | none => (Except.error (job.state ++ " is not a valid ScoringState"), st)
    | some current =>
      if next_state ∈ allowed_transitions current then
        update_job_state st jid next_state none none now
      else
        (Except.error ("Cannot transition from " ++ current.val ++ " to "
          ++ next_state.val), st)

end Scoring

namespace SSE

/-- The 30-second timeout handed to `asyncio.wait_for(queue.get(), timeout=30.0)`
in `SSEPublisher.stream_updates` (sse.py line 62), in whole seconds. -/
def keepalive_timeout : Nat := 30

/-- What one iteration of the `while True` loop in `stream_updates` observed:
either `asyncio.wait_for` timed out after `keepalive_timeout` seconds with no
event, or an event arrived on the subscriber's queue. -/
inductive QueueRead (ε : Type)
  | timedOut
  | item (e : ε)
deriving Repr, DecidableEq

/-- The yield of one loop iteration (sse.py lines 59-69): a timeout yields
the keepalive comment line, an event yields one SSE item framed as
`data: <json>\n\n` (`dumps` stands for `json.dumps`, which is external to
the repository). -/
def stream_round {ε : Type} (dumps : ε → String) : QueueRead ε → String
  | .timedOut => ": keepalive\n\n"
  | .item e => "data: " ++ dumps e ++ "\n\n"

/-- `SSEPublisher.stream_updates` over a finite prefix of the loop's
iterations: each wait (bounded by `keepalive_timeout`) produces exactly one
yielded string. -/
def stream_updates {ε : Type} (dumps : ε → String) (reads : List (QueueRead ε)) :
    List String :=
  reads.map (stream_round dumps)

end SSE

/-! Helper lemmas shared between claims. -/

/-- `List.find?` returns the first element satisfying the predicate: every
element before it in the list fails the predicate. -/
theorem find?_spec_first {α : Type} (p : α → Bool) :
    ∀ (l : List α) (a : α), l.find? p = some a →
      p a = true ∧ ∃ l₁ l₂, l = l₁ ++ a :: l₂ ∧ ∀ x ∈ l₁, p x = false := by
  intro l
  induction l with
  | nil => intro a h; simp [List.find?] at h
  | cons b t ih =>
    intro a h
    cases hb : p b with
    | true =>
      rw [List.find?_cons_of_pos _ hb] at h
      injection h with h
      subst h
      exact ⟨hb, [], t, rfl, by intro x hx; cases hx⟩
    | false =>
      rw [List.find?_cons_of_neg _ (by simp [hb])] at h
      obtain ⟨hpa, l₁, l₂, heq, hall⟩ := ih a h
      subst heq
      refine ⟨hpa, b :: l₁, l₂, rfl, ?_⟩
      intro x hx
      rcases List.mem_cons.mp hx with hx | hx
      · subst hx; exact hb
      · exact hall x hx

namespace PetLifecycle

/-- `check_guards` short-circuits: a failure is the failure of the first
guard in list order that fails, and every guard before it passed. -/
theorem check_guards_first_fail (pet : Pet) :
    ∀ (gs : List String) (r : String), check_guards pet gs = .failed r →
      ∃ l₁ g l₂, gs = l₁ ++ g :: l₂ ∧ (∀ x ∈ l₁, evalGuard pet x = .passed)
        ∧ evalGuard pet g = .failed r := by
  intro gs
  induction gs with
  | nil => intro r h; simp [check_guards] at h
  | cons g rest ih =>
    intro r h
    unfold check_guards at h
    cases he : evalGuard pet g with
    | failed r2 =>
      rw [he] at h
      injection h with h
      subst h
      exact ⟨[], g, rest, rfl, ⟨(by intro x hx; cases hx), he⟩⟩
    | passed =>
      rw [he] at h
      obtain ⟨l₁, g2, l₂, heq, hall, hg2⟩ := ih r h
      subst heq
      refine ⟨g :: l₁, g2, l₂, rfl, ?_, hg2⟩
      intro x hx
      rcases List.mem_cons.mp hx with hx | hx
      · subst hx; exact he
      · exact hall x hx

/-- Number of `py.lifecycle.transition.completed` events in an emission
list: the audit marker of an applied transition. -/
def countCompleted : List Emitted → Nat
  | [] => 0
  | Emitted.transitionCompleted _ _ _ _ _ :: rest => countCompleted rest + 1
  | _ :: rest => countCompleted rest

/-- The next-action helper never emits a completed event. -/
theorem countCompleted_next_action (pid ns os : String) :
    countCompleted (emit_next_action_events pid ns os) = 0 := by
  unfold emit_next_action_events
  split_ifs <;> rfl

theorem countCompleted_completed_cons (a b c d e : String) (rest : List Emitted) :
    countCompleted (Emitted.transitionCompleted a b c d e :: rest) =
      countCompleted rest + 1 := rfl

/-- An applied handler run emits exactly one completed event. -/
theorem applied_one_completed :
    ∀ (db : Db) (pid evt : String) (req : Option String) (now : Nat)
      (o : Outcome) (db2 : Db) (es : List Emitted)
      (sc : Option (String × String × String)) (old nw : String),
      handler db pid evt req now = ⟨o, db2, es, sc⟩ → o = Outcome.applied old nw →
      countCompleted es = 1 := by
  intro db pid evt req now o db2 es sc old nw h ho
  subst ho
  unfold handler at h
  split at h
  · simp_all
  · split at h
    · simp_all
    · split at h
      · simp_all
      · split at h
        · simp_all
        · split at h
          · simp_all
          · split at h
            · split at h
              · simp_all
              · unfold applied_result at h
                simp only [HandlerResult.mk.injEq] at h
                obtain ⟨-, -, h4, -⟩ := h
                subst h4
                simp [countCompleted_completed_cons, countCompleted_next_action]
            · unfold applied_result at h
              simp only [HandlerResult.mk.injEq] at h
              obtain ⟨-, -, h4, -⟩ := h
              subst h4
              simp [countCompleted_completed_cons, countCompleted_next_action]

/-- Concrete fixtures used by the witnesses and counterexamples below. -/
def petHealthy : Pet :=
  { id := "pet-1", name := "Rex", species := "dog", ageMonths := 12,
    status := "healthy", flags := none, createdAt := 100, updatedAt := 100 }

def dbHealthy : Db := { seq := 2, pets := [("pet-1", petHealthy)] }

def petFlagged : Pet := { petHealthy with flags := some ["needs_data"] }

def dbFlagged : Db := { seq := 2, pets := [("pet-1", petFlagged)] }

def petQuarantine : Pet := { petHealthy with status := "in_quarantine" }

def dbQuarantine : Db := { seq := 2, pets := [("pet-1", petQuarantine)] }

/-- C1: the status change and the flag change are NOT applied together.  The
only rule with a `flagAction` (healthy→healthy on `adoption.needs_data`,
adding "needs_data") can never add its flag, because the handler calls
`pet_store.add_flag` — a function `steps/services/pet_store.py` does not
define — so after `update_status` has already persisted the entity the call
raises `AttributeError`, which the handler's outer `except` swallows.  At the
failing input the persisted entity has a bumped `updatedAt` and still no
flag, and no completion event was emitted: the status write happened, the
flag write never can. -/
theorem C1_flag_action_never_applied :
    handler dbHealthy "pet-1" "adoption.needs_data" none 200 =
      { outcome := Outcome.attrError "healthy" "healthy",
        db := { seq := 2, pets := [("pet-1", { petHealthy with updatedAt := 200 })] },
        emitted := [], scheduled := none }
    ∧ (pet_store.get (handler dbHealthy "pet-1" "adoption.needs_data" none 200).db
        "pet-1").map Pet.flags = some none
    ∧ (find_rule TRANSITION_RULES "healthy" "adoption.needs_data" none).map
        Rule.flagAction = some (some { action := "add", flag := "needs_data" }) :=
  ⟨rfl, rfl, rfl⟩

/-- C3 counterexample: on the idempotent no-op path the handler publishes
nothing at all — a pet already `healthy` receiving
`health.no_treatment_needed` matches the healthy→healthy rule, takes the
"already in target status" return, and the emitted-event list is empty, so
the no-op outcome is not observable to subscribers. -/
theorem C3_noop_publishes_nothing :
    (handler dbHealthy "pet-1" "health.no_treatment_needed" none 300).outcome =
      Outcome.noop
    ∧ (handler dbHealthy "pet-1" "health.no_treatment_needed" none 300).emitted = [] :=
  ⟨rfl, rfl⟩

/-- C3 amended: the engine publishes a notification event for the applied
and the rejected outcomes (one `py.lifecycle.transition.rejected` event
carrying the reason, or one `py.lifecycle.transition.completed` event
followed only by next-action events), but the no-op path returns without
publishing anything — only the applied and rejected outcomes are observable
to subscribers. -/
theorem C3_amended_notifications :
    ∀ (db : Db) (pid evt : String) (req : Option String) (now : Nat)
      (o : Outcome) (db2 : Db) (es : List Emitted)
      (sc : Option (String × String × String)),
      handler db pid evt req now = ⟨o, db2, es, sc⟩ →
      (∀ r, o = Outcome.rejected r →
        ∃ cs rq, es = [Emitted.transitionRejected pid cs rq evt r])
      ∧ (∀ old nw, o = Outcome.applied old nw →
        ∃ d, es = Emitted.transitionCompleted pid old nw evt d
          :: emit_next_action_events pid nw old)
      ∧ (o = Outcome.noop → es = []) := by
  intro db pid evt req now o db2 es sc h
  unfold handler at h
  split at h
  all_goals try split at h
  all_goals try split at h
  all_goals try split at h
  all_goals try split at h
  all_goals try split at h
  all_goals try split at h
  all_goals (
    try unfold applied_result at h
    simp only [HandlerResult.mk.injEq] at h
    obtain ⟨ho, hdb, hes, hsc⟩ := h
    subst ho
    subst hes
    refine ⟨?_, ?_, ?_⟩
    · intro r hr
      first
        | (injection hr with hr1; subst hr1; exact ⟨_, _, rfl⟩)
        | injection hr
    · intro old nw hap
      first
        | (injection hap with h1 h2; subst h1; subst h2; exact ⟨_, rfl⟩)
        | injection hap
    · intro hn
      first
        | rfl
        | injection hn)

/-- C4 counterexample: for `pet-1` at `healthy` with flags `["needs_data"]`
receiving `adoption.ready`, the rejection reason the engine reports is the
guard's reason prefixed with "Guard check failed: ", not the bare guard
reason the claim states. -/
theorem C4_guard_reason_is_prefixed :
    (handler dbFlagged "pet-1" "adoption.ready" none 300).outcome =
      Outcome.rejected "Guard check failed: Pet has needs_data flag blocking adoption"
    ∧ (handler dbFlagged "pet-1" "adoption.ready" none 300).outcome ≠
      Outcome.rejected "Pet has needs_data flag blocking adoption" := by
  exact ⟨rfl, by decide⟩

/-- C4 amended: guards are evaluated strictly in list order with
short-circuit on the first failure, whose reason (never an aggregation) is
reported; a guard failure mutates nothing — the handler returns the
unchanged store.  The reported rejection reason is the failing guard's
reason prefixed with "Guard check failed: ".  Concretely, at `healthy` with
flags containing "needs_data", `adoption.ready` is rejected with
"Guard check failed: Pet has needs_data flag blocking adoption" and the
store is unchanged; with no flags it is applied with new status
`available`. -/
theorem C4_guard_short_circuit :
    (∀ (pet : Pet) (gs : List String) (r : String),
      check_guards pet gs = GuardResult.failed r →
        ∃ l₁ g l₂, gs = l₁ ++ g :: l₂ ∧ (∀ x ∈ l₁, evalGuard pet x = GuardResult.passed)
          ∧ evalGuard pet g = GuardResult.failed r)
    ∧ (∀ (db : Db) (pid evt : String) (req : Option String) (now : Nat)
        (pet : Pet) (rule : Rule) (gr : String),
        pet_store.get db pid = some pet →
        find_rule TRANSITION_RULES pet.status evt req = some rule →
        rule.guards.isEmpty = false →
        check_guards pet rule.guards = GuardResult.failed gr →
        handler db pid evt req now =
          { outcome := Outcome.rejected ("Guard check failed: " ++ gr), db := db,
            emitted := [Emitted.transitionRejected pid pet.status (some rule.toStatus)
              evt ("Guard check failed: " ++ gr)],
            scheduled := none })
    ∧ handler dbFlagged "pet-1" "adoption.ready" none 300 =
        { outcome := Outcome.rejected
            "Guard check failed: Pet has needs_data flag blocking adoption",
          db := dbFlagged,
          emitted := [Emitted.transitionRejected "pet-1" "healthy" (some "available")
            "adoption.ready"
            "Guard check failed: Pet has needs_data flag blocking adoption"],
          scheduled := none }
    ∧ (handler dbHealthy "pet-1" "adoption.ready" none 300).outcome =
        Outcome.applied "healthy" "available" := by
  refine ⟨check_guards_first_fail, ?_, rfl, rfl⟩
  intro db pid evt req now pet rule gr hget hfind hne hfail
  unfold handler
  simp only [hget, hfind, hne, hfail, Bool.not_false, if_true]

/-- C5: when no transition rule matches the (status, event, requested
status) triple, the attempt is rejected — one rejection event is emitted —
and the handler returns the store exactly as it was: no write, so status and
`updatedAt` are unchanged. -/
theorem C5_no_matching_rule_rejected_unchanged :
    ∀ (db : Db) (pid evt : String) (req : Option String) (now : Nat) (pet : Pet),
      pet_store.get db pid = some pet →
      find_rule TRANSITION_RULES pet.status evt req = none →
      ∃ reason, handler db pid evt req now =
        { outcome := Outcome.rejected reason, db := db,
          emitted := [Emitted.transitionRejected pid pet.status req evt reason],
          scheduled := none } := by
  intro db pid evt req now pet hget hfind
  unfold handler
  simp only [hget, hfind]
  exact ⟨_, rfl⟩

/-- C5 witness: a healthy pet asked to become `adopted` directly has no
matching rule; the attempt is rejected and the store is returned
unchanged. -/
theorem C5_witness :
    ∃ reason, handler dbHealthy "pet-1" "status.update.requested" (some "adopted") 400 =
      { outcome := Outcome.rejected reason, db := dbHealthy,
        emitted := [Emitted.transitionRejected "pet-1" "healthy" (some "adopted")
          "status.update.requested" reason],
        scheduled := none } := by
  have h := C5_no_matching_rule_rejected_unchanged dbHealthy "pet-1"
    "status.update.requested" (some "adopted") 400 petHealthy (by rfl) (by rfl)
  simpa [petHealthy] using h

/-- C3 witness: the guard rejection for the flagged pet is published as
exactly one rejection event carrying the prefixed reason. -/
theorem C3_amended_witness :
    ∃ cs rq, (handler dbFlagged "pet-1" "adoption.ready" none 300).emitted =
      [Emitted.transitionRejected "pet-1" cs rq "adoption.ready"
        "Guard check failed: Pet has needs_data flag blocking adoption"] := by
  have h := C3_amended_notifications dbFlagged "pet-1" "adoption.ready" none 300
    (Outcome.rejected "Guard check failed: Pet has needs_data flag blocking adoption")
    dbFlagged
    [Emitted.transitionRejected "pet-1" "healthy" (some "available") "adoption.ready"
      "Guard check failed: Pet has needs_data flag blocking adoption"]
    none rfl
  exact h.1 _ rfl

/-- The adoption-readiness rule, last entry of `TRANSITION_RULES`. -/
def ruleAdoptionReady : Rule :=
  { fromS := ["healthy"], toStatus := "available", event := "adoption.ready",
    description := "Agent assessment - pet ready for adoption",
    guards := ["no_needs_data_flag"] }

/-- C4 witness: the general guard-failure clause instantiated at the
concrete flagged pet. -/
theorem C4_guard_short_circuit_witness :
    handler dbFlagged "pet-1" "adoption.ready" none 123 =
      { outcome := Outcome.rejected
          "Guard check failed: Pet has needs_data flag blocking adoption",
        db := dbFlagged,
        emitted := [Emitted.transitionRejected "pet-1" "healthy" (some "available")
          "adoption.ready"
          "Guard check failed: Pet has needs_data flag blocking adoption"],
        scheduled := none } :=
  C4_guard_short_circuit.2.1 dbFlagged "pet-1" "adoption.ready" none 123 petFlagged
    ruleAdoptionReady "Pet has needs_data flag blocking adoption" rfl rfl rfl rfl

/-- C2: the auto-progression scheduler runs only after an applied
transition (never after a rejection, a no-op, or the flag-action error
path), only for a landed status present in the `automatic_progressions`
map; and when the delayed task fires it re-loads the pet and emits the
synthetic `status.update.requested` event only if the fresh status still
equals the status that triggered scheduling — if the status changed in the
meantime (or the pet is gone) the progression is dropped and nothing is
emitted, so a concurrently-set status is final. -/
theorem C2_auto_progression_race_safety :
    (∀ (db : Db) (pid evt : String) (req : Option String) (now : Nat)
        (o : Outcome) (db2 : Db) (es : List Emitted)
        (sc : Option (String × String × String)) (pid2 trig nx : String),
        handler db pid evt req now = ⟨o, db2, es, sc⟩ →
        sc = some (pid2, trig, nx) →
        pid2 = pid ∧ automatic_progressions trig = some nx ∧
          ∃ old, o = Outcome.applied old trig)
    ∧ (∀ (dbL : Db) (pid trig nx : String) (fresh : Pet),
        pet_store.get dbL pid = some fresh → fresh.status ≠ trig →
        delayed_emit dbL pid trig nx = none)
    ∧ (∀ (dbL : Db) (pid trig nx : String) (fresh : Pet),
        pet_store.get dbL pid = some fresh → fresh.status = trig →
        delayed_emit dbL pid trig nx =
          some (Emitted.autoStatusUpdateRequested pid nx fresh.status))
    ∧ (∀ (dbL : Db) (pid trig nx : String),
        pet_store.get dbL pid = none → delayed_emit dbL pid trig nx = none) := by
  refine ⟨?_, ?_, ?_, ?_⟩
  · intro db pid evt req now o db2 es sc pid2 trig nx h hs
    unfold handler at h
    split at h
    all_goals try split at h
    all_goals try split at h
    all_goals try split at h
    all_goals try split at h
    all_goals try split at h
    all_goals try split at h
    all_goals (
      try unfold applied_result at h
      simp only [HandlerResult.mk.injEq] at h
      obtain ⟨ho, hdb, hes, hsc⟩ := h
      subst ho
      subst hsc
      first
        | cases hs
        | (obtain ⟨a, ha, hfa⟩ := Option.map_eq_some'.mp hs
           simp only [Prod.mk.injEq] at hfa
           obtain ⟨h1, h2, h3⟩ := hfa
           subst h1
           subst h2
           subst h3
           exact ⟨rfl, ha, ⟨_, rfl⟩⟩))
  · intro dbL pid trig nx fresh hget hne
    unfold delayed_emit
    simp [hget, hne]
  · intro dbL pid trig nx fresh hget htrig
    subst htrig
    unfold delayed_emit
    simp [hget]
  · intro dbL pid trig nx hget
    unfold delayed_emit
    simp [hget]

/-- The store after the in_quarantine pet was healed at time 500. -/
def dbHealed : Db :=
  { seq := 2, pets := [("pet-1", { petHealthy with updatedAt := 500 })] }

/-- A store in which the pet has concurrently been moved to `ill`. -/
def dbSick : Db :=
  { seq := 2, pets := [("pet-1", { petHealthy with status := "ill" })] }

/-- C2 witness: an applied transition landing at `healthy` schedules the
healthy→available progression, and the delayed task drops it when the pet
has meanwhile become `ill`. -/
theorem C2_auto_progression_witness :
    ("pet-1" = "pet-1" ∧ automatic_progressions "healthy" = some "available" ∧
      ∃ old, Outcome.applied "in_quarantine" "healthy" = Outcome.applied old "healthy")
    ∧ delayed_emit dbSick "pet-1" "healthy" "available" = none := by
  refine ⟨C2_auto_progression_race_safety.1 dbQuarantine "pet-1"
    "health.no_treatment_needed" none 500 (Outcome.applied "in_quarantine" "healthy")
    dbHealed
    [Emitted.transitionCompleted "pet-1" "in_quarantine" "healthy"
      "health.no_treatment_needed" "Agent assessment - pet remains healthy"]
    (some ("pet-1", "healthy", "available")) "pet-1" "healthy" "available" rfl rfl,
    C2_auto_progression_race_safety.2.1 dbSick "pet-1" "healthy" "available"
      { petHealthy with status := "ill" } rfl (by decide)⟩

/-- C6: after a first submission is applied, an identical re-submission for
which the matched rule leaves the pet at its own `toStatus`, passes the
guards and carries no flag action takes the idempotency return: no store
mutation (the store is returned unchanged), nothing emitted, nothing
scheduled — and since the store is unchanged, every further identical
re-submission behaves the same; across the two submissions exactly one
completed (audit) event was emitted. -/
theorem C6_idempotent_replay :
    ∀ (db : Db) (pid evt : String) (req : Option String) (now1 : Nat)
      (o1 : Outcome) (db1 : Db) (es1 : List Emitted)
      (sc1 : Option (String × String × String)) (old nw : String)
      (pet1 : Pet) (rule : Rule),
      handler db pid evt req now1 = ⟨o1, db1, es1, sc1⟩ →
      o1 = Outcome.applied old nw →
      pet_store.get db1 pid = some pet1 →
      find_rule TRANSITION_RULES pet1.status evt req = some rule →
      (rule.guards.isEmpty = true ∨ check_guards pet1 rule.guards = GuardResult.passed) →
      pet1.status = rule.toStatus →
      rule.flagAction = none →
      countCompleted es1 = 1 ∧
        ∀ now2, handler db1 pid evt req now2 =
          { outcome := Outcome.noop, db := db1, emitted := [], scheduled := none } := by
  intro db pid evt req now1 o1 db1 es1 sc1 old nw pet1 rule h ho hget hfind hg hst hfa
  refine ⟨applied_one_completed db pid evt req now1 o1 db1 es1 sc1 old nw h ho, ?_⟩
  intro now2
  have hgr : (if (!rule.guards.isEmpty) = true then check_guards pet1 rule.guards
      else GuardResult.passed) = GuardResult.passed := by
    rcases hg with hg | hg
    · rw [hg]; simp
    · split
      · exact hg
      · rfl
  unfold handler
  simp only [hget]
  simp only [hfind]
  simp only [hgr]
  rw [hst, hfa]
  simp

/-- The healthy-stays-healthy agent rule, twelfth entry of
`TRANSITION_RULES`. -/
def ruleNoTreatment : Rule :=
  { fromS := ["healthy", "in_quarantine"], toStatus := "healthy",
    event := "health.no_treatment_needed",
    description := "Agent assessment - pet remains healthy" }

/-- C6 witness: quarantined pet, `health.no_treatment_needed` applied once
(one completed event), then the identical re-submission is a no-op leaving
the store untouched. -/
theorem C6_idempotent_replay_witness :
    countCompleted [Emitted.transitionCompleted "pet-1" "in_quarantine" "healthy"
      "health.no_treatment_needed" "Agent assessment - pet remains healthy"] = 1
    ∧ handler dbHealed "pet-1" "health.no_treatment_needed" none 600 =
      { outcome := Outcome.noop, db := dbHealed, emitted := [], scheduled := none } := by
  have h := C6_idempotent_replay dbQuarantine "pet-1" "health.no_treatment_needed" none 500
    (Outcome.applied "in_quarantine" "healthy") dbHealed
    [Emitted.transitionCompleted "pet-1" "in_quarantine" "healthy"
      "health.no_treatment_needed" "Agent assessment - pet remains healthy"]
    (some ("pet-1", "healthy", "available")) "in_quarantine" "healthy"
    { petHealthy with updatedAt := 500 } ruleNoTreatment
    rfl rfl rfl rfl (Or.inl rfl) rfl rfl
  exact ⟨h.1, h.2 600⟩

/-- C7: rule selection is first-match in declaration order — the selected
rule matches (event equal, current status in `fromS`, and, when the event is
`status.update.requested` with a requested status supplied, `toStatus` equal
to it) and every earlier rule in the table fails the match predicate; the
two clauses spell out the match predicate with and without the
requested-status narrowing.  Only the selected rule's guards are ever
evaluated by the handler (it is the unique rule the handler's guard check
receives). -/
theorem C7_first_match_selection :
    (∀ (rules : List Rule) (status evt : String) (req : Option String) (r : Rule),
        find_rule rules status evt req = some r →
          ruleMatches status evt req r = true ∧
          ∃ l₁ l₂, rules = l₁ ++ r :: l₂ ∧ ∀ x ∈ l₁, ruleMatches status evt req x = false)
    ∧ (∀ (status evt : String) (req : Option String) (r : Rule),
        (evt == "status.update.requested" && truthyOpt req) = true →
        ruleMatches status evt req r =
          (r.event == evt && r.fromS.contains status && (req == some r.toStatus)))
    ∧ (∀ (status evt : String) (req : Option String) (r : Rule),
        (evt == "status.update.requested" && truthyOpt req) = false →
        ruleMatches status evt req r = (r.event == evt && r.fromS.contains status)) := by
  refine ⟨?_, ?_, ?_⟩
  · intro rules status evt req r h
    exact find?_spec_first (ruleMatches status evt req) rules r h
  · intro status evt req r h
    unfold ruleMatches
    rw [if_pos h]
  · intro status evt req r h
    unfold ruleMatches
    rw [if_neg (by simp [h])]

/-- The staff-assessment rule healthy/in_quarantine/available→ill, third
entry of `TRANSITION_RULES`. -/
def ruleStaffIll : Rule :=
  { fromS := ["healthy", "in_quarantine", "available"], toStatus := "ill",
    event := "status.update.requested",
    description := "Staff assessment - pet identified as ill" }

/-- C7 witness: for a healthy pet requesting `ill`, the selected rule is the
third table entry; it matches and both earlier rules fail the predicate. -/
theorem C7_first_match_witness :
    ruleMatches "healthy" "status.update.requested" (some "ill") ruleStaffIll = true
    ∧ ∃ l₁ l₂, TRANSITION_RULES = l₁ ++ ruleStaffIll :: l₂ ∧
        ∀ x ∈ l₁, ruleMatches "healthy" "status.update.requested" (some "ill") x = false :=
  C7_first_match_selection.1 TRANSITION_RULES "healthy" "status.update.requested"
    (some "ill") ruleStaffIll rfl

end PetLifecycle

namespace Scoring

/-- The job `job-42` sitting at `scored`, and the orchestrator state holding
it with nothing published yet. -/
def jobScored : Job :=
  { job_id := "job-42", submission_id := "sub-1", text := "answer text",
    metadata := "{}", state := "scored", created_at := 1, updated_at := 1,
    steps_completed := [], results := [], errors := [] }

def stScored : OrchState := { store := [("job-42", jobScored)], published := [] }

def stEnriched : OrchState := (transition_job stScored "job-42" ScoringState.enriched 2).2

def stCompleted : OrchState :=
  (transition_job stEnriched "job-42" ScoringState.completed 3).2

/-- C8 counterexample: both transitions of the scenario succeed, but the
job's persisted step record (`steps_completed`) gains no entries at all —
`transition_job` calls `update_job_state` without a step name, so the claim
that the record then holds exactly two applied entries is false. -/
theorem C8_steps_record_not_appended :
    (transition_job stScored "job-42" ScoringState.enriched 2).1 =
      Except.ok { jobScored with state := "enriched", updated_at := 2 }
    ∧ (transition_job stEnriched "job-42" ScoringState.completed 3).1 =
      Except.ok { jobScored with state := "completed", updated_at := 3 }
    ∧ (get_job_status stCompleted "job-42").map Job.steps_completed = some []
    ∧ ¬ (get_job_status stCompleted "job-42").map
        (fun j => j.steps_completed.length) = some 2 :=
  ⟨rfl, rfl, rfl, by decide⟩

/-- C8 amended: job `job-42` at `scored` transitions to `enriched` and then
to `completed`, both succeeding; each successful transition publishes one
`job_state_changed` event, so the channel — what a subscriber connected
before both transitions receives — carries exactly those two events in
order; the stored job ends at `completed`; the persisted `steps_completed`
list, however, is left empty because `transition_job` supplies no step
name. -/
theorem C8_two_transitions_publish_in_order :
    (transition_job stScored "job-42" ScoringState.enriched 2).1 =
      Except.ok { jobScored with state := "enriched", updated_at := 2 }
    ∧ (transition_job stEnriched "job-42" ScoringState.completed 3).1 =
      Except.ok { jobScored with state := "completed", updated_at := 3 }
    ∧ stCompleted.published =
      [ { type := "job_state_changed", job_id := "job-42", state := "enriched",
          step := none },
        { type := "job_state_changed", job_id := "job-42", state := "completed",
          step := none } ]
    ∧ get_job_status stCompleted "job-42" =
        some { jobScored with state := "completed", updated_at := 3 }
    ∧ (get_job_status stCompleted "job-42").map Job.steps_completed = some [] :=
  ⟨rfl, rfl, rfl, rfl, rfl⟩

/-- C10: for a store whose jobs all carry valid state strings (an invariant
of every write the orchestrator performs), `transition_job` raises
(`ValueError`, modelled as `Except.error`) exactly when the job is missing
or the requested next state is not in the allowed-transitions list of the
current state; on a raise the store and the published channel are returned
unchanged — no write, no publish; and from any state whose allowed list is
empty (`completed` and `failed`) every request raises. -/
theorem C10_transition_error_iff :
    ∀ (st : OrchState) (jid : String) (next : ScoringState) (now : Nat),
      (∀ j, get_job_status st jid = some j → (parseScoringState j.state).isSome = true) →
      ((∃ e, (transition_job st jid next now).1 = Except.error e) ↔
        (get_job_status st jid = none ∨
          ∃ j cur, get_job_status st jid = some j ∧ parseScoringState j.state = some cur ∧
            next ∉ allowed_transitions cur))
      ∧ ((∃ e, (transition_job st jid next now).1 = Except.error e) →
          (transition_job st jid next now).2 = st)
      ∧ (∀ j cur, get_job_status st jid = some j → parseScoringState j.state = some cur →
          allowed_transitions cur = [] →
          ∃ e, (transition_job st jid next now).1 = Except.error e) := by
  intro st jid next now hval
  cases hj : get_job_status st jid with
  | none =>
    have ht : transition_job st jid next now =
        (Except.error ("Job " ++ jid ++ " not found"), st) := by
      unfold transition_job
      simp [hj]
    refine ⟨⟨fun _ => Or.inl rfl, fun _ => ⟨_, by rw [ht]⟩⟩, fun _ => by rw [ht], ?_⟩
    intro j cur hjj
    exact Option.noConfusion hjj
  | some job =>
    have hcur := hval job hj
    cases hp : parseScoringState job.state with
    | none =>
      rw [hp] at hcur
      simp at hcur
    | some cur =>
      by_cases hin : next ∈ allowed_transitions cur
      · have ht : transition_job st jid next now =
            update_job_state st jid next none none now := by
          unfold transition_job
          simp [hj, hp, hin]
        have hupd : ∃ j2 st2,
            update_job_state st jid next none none now = (Except.ok j2, st2) := by
          unfold update_job_state
          rw [hj]
          exact ⟨_, _, rfl⟩
        obtain ⟨j2, st2, hupd⟩ := hupd
        refine ⟨⟨?_, ?_⟩, ?_, ?_⟩
        · rintro ⟨e, he⟩
          rw [ht, hupd] at he
          exact Except.noConfusion he
        · rintro (h0 | ⟨j3, cur3, hj3, hp3, hnin⟩)
          · exact Option.noConfusion h0
          · injection hj3 with hj3
            subst hj3
            rw [hp] at hp3
            injection hp3 with hp3
            subst hp3
            exact absurd hin hnin
        · rintro ⟨e, he⟩
          rw [ht, hupd] at he
          exact Except.noConfusion he
        · intro j3 cur3 hj3 hp3 hemp
          injection hj3 with hj3
          subst hj3
          rw [hp] at hp3
          injection hp3 with hp3
          subst hp3
          rw [hemp] at hin
          exact absurd hin (List.not_mem_nil next)
      · have ht : transition_job st jid next now =
            (Except.error ("Cannot transition from " ++ cur.val ++ " to "
              ++ next.val), st) := by
          unfold transition_job
          simp [hj, hp, hin]
        refine ⟨⟨fun _ => Or.inr ⟨job, cur, rfl, hp, hin⟩, fun _ => ⟨_, by rw [ht]⟩⟩,
          fun _ => by rw [ht], ?_⟩
        intro j3 cur3 hj3 hp3 hemp
        exact ⟨_, by rw [ht]⟩

/-- A completed job: its allowed-transitions list is empty. -/
def jobDone : Job := { jobScored with job_id := "job-7", state := "completed" }

def stDone : OrchState := { store := [("job-7", jobDone)], published := [] }

/-- C10 witness: a request on a `completed` job raises and leaves the
orchestrator state (store and published events) unchanged. -/
theorem C10_transition_error_witness :
    (∃ e, (transition_job stDone "job-7" ScoringState.processing 9).1 = Except.error e)
    ∧ (transition_job stDone "job-7" ScoringState.processing 9).2 = stDone := by
  have h := C10_transition_error_iff stDone "job-7" ScoringState.processing 9
    (by intro j hj; cases hj; rfl)
  have he := h.2.2 jobDone ScoringState.completed rfl rfl rfl
  exact ⟨he, h.2.1 he⟩

end Scoring

namespace SSE

/-- C9: over any finite run of the subscription loop, every iteration ends
within one `keepalive_timeout` wait and yields exactly one string — a
timed-out wait yields the keepalive comment line and the loop continues,
and an arriving event yields exactly one SSE item framed as
`data: <json>\n\n` — so the stream emits one line per wait round and is
never silent for longer than the keepalive interval while subscribed. -/
theorem C9_keepalive_and_framing :
    ∀ (ε : Type) (dumps : ε → String) (reads : List (QueueRead ε)),
      (stream_updates dumps reads).length = reads.length
      ∧ (∀ (i : Nat) (h : i < reads.length)
          (h2 : i < (stream_updates dumps reads).length),
          reads.get ⟨i, h⟩ = QueueRead.timedOut →
          (stream_updates dumps reads).get ⟨i, h2⟩ = ": keepalive\n\n")
      ∧ (∀ (i : Nat) (h : i < reads.length)
          (h2 : i < (stream_updates dumps reads).length) (e : ε),
          reads.get ⟨i, h⟩ = QueueRead.item e →
          (stream_updates dumps reads).get ⟨i, h2⟩ = "data: " ++ dumps e ++ "\n\n") := by
  intro ε dumps reads
  refine ⟨List.length_map _ _, ?_, ?_⟩
  · intro i h h2 hread
    rw [List.get_eq_getElem] at hread ⊢
    simp only [stream_updates, List.getElem_map]
    rw [hread]
    rfl
  · intro i h h2 e hread
    rw [List.get_eq_getElem] at hread ⊢
    simp only [stream_updates, List.getElem_map]
    rw [hread]
    rfl

/-- C9 witness: a two-round run — one timeout, then one event — yields the
keepalive comment and then the framed SSE item. -/
theorem C9_keepalive_witness :
    (stream_updates (fun n : Nat => toString n)
      [QueueRead.timedOut, QueueRead.item 5]).length = 2
    ∧ (stream_updates (fun n : Nat => toString n)
        [QueueRead.timedOut, QueueRead.item 5]).get ⟨0, by decide⟩ = ": keepalive\n\n"
    ∧ (stream_updates (fun n : Nat => toString n)
        [QueueRead.timedOut, QueueRead.item 5]).get ⟨1, by decide⟩ = "data: 5\n\n" := by
  have h := C9_keepalive_and_framing Nat (fun n : Nat => toString n)
    [QueueRead.timedOut, QueueRead.item 5]
  exact ⟨h.1, h.2.1 0 (by decide) (by decide) rfl, h.2.2 1 (by decide) (by decide) 5 rfl⟩

end SSE
